import Mathlib

/- A shallow embedding of `src/spec_analyzer_v2.py`: the agent state and its
merge rule, the workflow nodes, the routing function, the CSV export with its
JSON parsing and raw-text fallback, and the suspend/resume executor loop that
drives the step graph. Text is modelled as `List Char`; the Python string
methods used by the program (`lower`, `strip`, `startswith`, `endswith`,
`split`, `rsplit`, `replace`) are given explicit models below. -/

abbrev Str := List Char

/-- Model of Python `str.lower` on a character, restricted to ASCII (all
sentinel comparisons in the program involve ASCII text only). -/
def lowerChar (c : Char) : Char :=
  if 65 ≤ c.toNat ∧ c.toNat ≤ 90 then Char.ofNat (c.toNat + 32) else c

/-- Model of Python `str.lower`. -/
def pyLower (s : Str) : Str := s.map lowerChar

/-- The characters removed by Python `str.strip()` (ASCII whitespace). -/
def isSpaceChar (c : Char) : Bool :=
  c == ' ' || c == '\t' || c == '\n' || c == '\r' || c.toNat == 11 || c.toNat == 12

/-- Model of Python `str.strip()`. -/
def pyStrip (s : Str) : Str :=
  ((s.dropWhile isSpaceChar).reverse.dropWhile isSpaceChar).reverse

/-- `leadsWith needle hay` : does `hay` begin with `needle`? -/
def leadsWith : Str → Str → Bool
  | [], _ => true
  | _ :: _, [] => false
  | a :: as, b :: bs => a == b && leadsWith as bs

/-- Model of Python `str.startswith`. -/
def pyStartsWith (needle s : Str) : Bool := leadsWith needle s

/-- Model of Python `str.endswith`. -/
def pyEndsWith (needle s : Str) : Bool := leadsWith needle.reverse s.reverse

/-- `hasSub needle hay` : does `needle` occur as a contiguous substring of
`hay`? (Model of the Python `in` test on strings, used here to state the
spec phrase "the prompt contains the literal feedback text".) -/
def hasSub (needle : Str) : Str → Bool
  | [] => needle.isEmpty
  | c :: rest => leadsWith needle (c :: rest) || hasSub needle rest

/-- Split `s` around the first occurrence of `sep` (a nonempty separator):
`some (before, after)`, or `none` when `sep` does not occur in `s`. -/
def breakFirst (sep : Str) : Str → Option (Str × Str)
  | [] => none
  | c :: rest =>
    if leadsWith sep (c :: rest) then some ([], List.drop sep.length (c :: rest))
    else
      match breakFirst sep rest with
      | some p => some (c :: p.1, p.2)
      | none => none

/-- Model of Python `s.split(sep)[1]`: the segment between the end of the
first occurrence of `sep` and the start of the next occurrence (or the end of
the string). The source only indexes `[1]` after a `startswith` guard, so an
occurrence is always present; the `none` branch is unreachable there. -/
def splitIdx1 (sep s : Str) : Str :=
  match breakFirst sep s with
  | none => []
  | some p =>
    match breakFirst sep p.2 with
    | none => p.2
    | some q => q.1

/-- Model of Python `s.rsplit(sep, 1)[0]`: everything before the last
occurrence of `sep`, or `s` itself when `sep` does not occur (Python's
`rsplit` then returns the one-element list `[s]`). -/
def rsplitIdx0 (sep s : Str) : Str :=
  match breakFirst sep.reverse s.reverse with
  | none => s
  | some p => p.2.reverse

/-- Fuel-driven worker for `pyReplaceAll`. -/
def pyReplaceGo (old new : Str) : Nat → Str → Str
  | _, [] => []
  | 0, s => s
  | f + 1, c :: rest =>
    if leadsWith old (c :: rest) then
      new ++ pyReplaceGo old new f (List.drop old.length (c :: rest))
    else c :: pyReplaceGo old new f rest

/-- Model of Python `str.replace(old, new)` for nonempty `old`: every
non-overlapping occurrence, scanned left to right, is replaced. -/
def pyReplaceAll (old new s : Str) : Str := pyReplaceGo old new s.length s

/- ----------------------------------------------------------------- -/
/- The state container (`AgentState`, src lines 40-44).               -/
/- ----------------------------------------------------------------- -/

/-- The `AgentState` TypedDict of the program. A key can be absent before the
node producing it has run, so every field is an `Option`. -/
structure AgentState where
  spec_text : Option Str
  analysis_gaps : Option Str
  ado_tickets : Option Str
  human_feedback : Option Str
deriving DecidableEq

/-- A partial state update as returned by a node: only the keys present
(`some`) are written. -/
structure StateUpdate where
  spec_text : Option Str
  analysis_gaps : Option Str
  ado_tickets : Option Str
  human_feedback : Option Str
deriving DecidableEq

/-- The empty partial update `{}` (returned by `save_to_file_node`). -/
def emptyUpdate : StateUpdate := ⟨none, none, none, none⟩

/-- The four keys of the `AgentState` dictionary. -/
inductive Key where
  | spec_text
  | analysis_gaps
  | ado_tickets
  | human_feedback
deriving DecidableEq

/-- Dictionary view of a state: the value stored at a key, if present. -/
def AgentState.get : AgentState → Key → Option Str
  | s, .spec_text => s.spec_text
  | s, .analysis_gaps => s.analysis_gaps
  | s, .ado_tickets => s.ado_tickets
  | s, .human_feedback => s.human_feedback

/-- Dictionary view of a partial update. -/
def StateUpdate.get : StateUpdate → Key → Option Str
  | u, .spec_text => u.spec_text
  | u, .analysis_gaps => u.analysis_gaps
  | u, .ado_tickets => u.ado_tickets
  | u, .human_feedback => u.human_feedback

/-- Modelled from the spec: the state merge applied by the workflow engine
after each node (the LangGraph `StateGraph` channel update is not part of
`src/`). Per the spec's contract, every key present in the partial update
replaces the current value, keys absent from the update are carried over
unchanged, and no key is ever deleted. -/
def merge (s : AgentState) (u : StateUpdate) : AgentState where
  spec_text := match u.spec_text with | some v => some v | none => s.spec_text
  analysis_gaps := match u.analysis_gaps with | some v => some v | none => s.analysis_gaps
  ado_tickets := match u.ado_tickets with | some v => some v | none => s.ado_tickets
  human_feedback := match u.human_feedback with | some v => some v | none => s.human_feedback

/- ----------------------------------------------------------------- -/
/- The router (src lines 211-219).                                    -/
/- ----------------------------------------------------------------- -/

/-- The conditional-edge router of the workflow: lowercases
`state.get("human_feedback", "")` and compares it with the literal
`"approve"`, routing to `"save_tickets"` on a match and back to
`"analyze_spec"` otherwise. -/
def router (st : AgentState) : Str :=
  let decision := pyLower (st.human_feedback.getD [])
  if decision = "approve".data then "save_tickets".data else "analyze_spec".data

/-- Case-insensitive string equality, the comparison the spec describes for
the routing sentinel. -/
def caseInsensitiveEq (a b : Str) : Prop := pyLower a = pyLower b

/- ----------------------------------------------------------------- -/
/- JSON values and a model of `json.loads` (src line 138).            -/
/- ----------------------------------------------------------------- -/

/-- JSON values, as produced by `json.loads`. Numbers are modelled as
integers: the tickets the program handles carry only strings, and none of the
claims involve fractional numbers. -/
inductive Json where
  | null
  | bool (b : Bool)
  | num (n : Int)
  | str (s : Str)
  | arr (xs : List Json)
  | obj (ms : List (Str × Json))

/-- The whitespace skipped by the JSON grammar. -/
def skipWs (s : Str) : Str :=
  s.dropWhile fun c => c == ' ' || c == '\t' || c == '\n' || c == '\r'

/-- Parse the body of a JSON string after the opening quote, returning the
decoded characters and the remaining input. Escapes cover the simple JSON
escape set; `\uXXXX` escapes and raw control characters are rejected (the
latter as in Python's strict mode). -/
def parseStrBody : Nat → Str → Option (Str × Str)
  | 0, _ => none
  | _ + 1, [] => none
  | f + 1, c :: rest =>
    if c == '"' then some ([], rest)
    else if c == '\\' then
      match rest with
      | [] => none
      | e :: rest2 =>
        let esc : Option Char :=
          if e == '"' then some '"'
          else if e == '\\' then some '\\'
          else if e == '/' then some '/'
          else if e == 'b' then some (Char.ofNat 8)
          else if e == 'f' then some (Char.ofNat 12)
          else if e == 'n' then some '\n'
          else if e == 'r' then some '\r'
          else if e == 't' then some '\t'
          else none
        match esc with
        | none => none
        | some ch =>
          match parseStrBody f rest2 with
          | none => none
          | some p => some (ch :: p.1, p.2)
    else if c.toNat < 32 then none
    else
      match parseStrBody f rest with
      | none => none
      | some p => some (c :: p.1, p.2)

/-- Digit value of an ASCII character. -/
def digitVal (c : Char) : Option Nat :=
  if 48 ≤ c.toNat ∧ c.toNat ≤ 57 then some (c.toNat - 48) else none

/-- Consume leading digits, accumulating their value. -/
def parseDigits : Str → Nat → Nat × Str
  | [], acc => (acc, [])
  | c :: rest, acc =>
    match digitVal c with
    | some d => parseDigits rest (acc * 10 + d)
    | none => (acc, c :: rest)

/-- Parse a JSON integer (optional minus sign; a leading zero stands alone,
as in the JSON grammar). -/
def parseNumFrom (s : Str) : Option (Json × Str) :=
  let p : Bool × Str := match s with | '-' :: r => (true, r) | _ => (false, s)
  match p.2 with
  | [] => none
  | c :: rest =>
    match digitVal c with
    | none => none
    | some d =>
      if d = 0 then some (.num 0, rest)
      else
        let q := parseDigits rest d
        some (.num (if p.1 then -(q.1 : Int) else (q.1 : Int)), q.2)

/-- Parse the elements of a JSON array after the first element position,
using `pv` for each element value. -/
def parseArrElems (pv : Str → Option (Json × Str)) :
    Nat → Str → List Json → Option (Json × Str)
  | 0, _, _ => none
  | f + 1, s, acc =>
    match pv s with
    | none => none
    | some (v, s1) =>
      match skipWs s1 with
      | ',' :: s2 => parseArrElems pv f s2 (v :: acc)
      | ']' :: s2 => some (.arr (v :: acc).reverse, s2)
      | _ => none

/-- Parse the members of a JSON object, using `pv` for each member value. -/
def parseObjMembers (pv : Str → Option (Json × Str)) :
    Nat → Str → List (Str × Json) → Option (Json × Str)
  | 0, _, _ => none
  | f + 1, s, acc =>
    match skipWs s with
    | '"' :: rest =>
      match parseStrBody rest.length.succ rest with
      | none => none
      | some (k, s1) =>
        match skipWs s1 with
        | ':' :: s2 =>
          match pv s2 with
          | none => none
          | some (v, s3) =>
            match skipWs s3 with
            | ',' :: s4 => parseObjMembers pv f s4 ((k, v) :: acc)
            | Char.ofNat 125 :: s4 => some (.obj ((k, v) :: acc).reverse, s4)
            | _ => none
        | _ => none
    | _ => none

/-- Parse one JSON value, fuel-driven. -/
def parseVal : Nat → Str → Option (Json × Str)
  | 0, _ => none
  | f + 1, s0 =>
    match skipWs s0 with
    | [] => none
    | c :: rest =>
      if c == 'n' then
        if leadsWith "ull".data rest then some (.null, List.drop 3 rest) else none
      else if c == 't' then
        if leadsWith "rue".data rest then some (.bool true, List.drop 3 rest) else none
      else if c == 'f' then
        if leadsWith "alse".data rest then some (.bool false, List.drop 4 rest) else none
      else if c == '"' then
        match parseStrBody rest.length.succ rest with
        | none => none
        | some p => some (.str p.1, p.2)
      else if c == '[' then
        match skipWs rest with
        | ']' :: s2 => some (.arr [], s2)
        | _ => parseArrElems (parseVal f) rest.length.succ rest []
      else if c == Char.ofNat 123 then
        match skipWs rest with
        | Char.ofNat 125 :: s2 => some (.obj [], s2)
        | _ => parseObjMembers (parseVal f) rest.length.succ rest []
      else parseNumFrom (c :: rest)

/-- Model of Python `json.loads`, restricted to the JSON fragment the program
exercises (null, booleans, integers, strings without unicode escapes, arrays,
objects): parse one value and require only whitespace to remain; `none`
models `json.JSONDecodeError`. -/
def json_loads (s : Str) : Option Json :=
  match parseVal s.length.succ s with
  | none => none
  | some (v, rest) => if (skipWs rest).isEmpty then some v else none

/- ----------------------------------------------------------------- -/
/- The CSV export (`export_to_ado_csv`, src lines 115-178).           -/
/- ----------------------------------------------------------------- -/

/-- Lookup in a parsed JSON object. Python's `json.loads` builds a `dict`, so
for a duplicated key the last binding wins. -/
def lookupLast (ms : List (Str × Json)) (k : Str) : Option Json :=
  match ms with
  | [] => none
  | (k0, v0) :: rest =>
    match lookupLast rest k with
    | some v => some v
    | none => if k0 = k then some v0 else none

/-- Model of Python `dict.get(key, default)` on a parsed JSON object. -/
def dictGet (ms : List (Str × Json)) (k : Str) (d : Json) : Json :=
  (lookupLast ms k).getD d

/-- One row of the exported CSV, in the order of the `fieldnames` header. -/
structure CsvRow where
  workItemType : Json
  title : Json
  description : Json
  acceptanceCriteria : Json
  priority : Json

/-- The CSV header fields (src lines 141-147). -/
def fieldnames : List Str :=
  ["Work Item Type".data, "Title".data, "Description".data,
   "Acceptance Criteria".data, "Priority".data]

/-- The row written for one ticket (src lines 155-161): each field is read
with `dict.get` and the source's per-field default. -/
def ticketRow (ms : List (Str × Json)) : CsvRow where
  workItemType := dictGet ms "Work Item Type".data (.str "User Story".data)
  title := dictGet ms "Title".data (.str [])
  description := dictGet ms "Description".data (.str [])
  acceptanceCriteria := dictGet ms "Acceptance Criteria".data (.str [])
  priority := dictGet ms "Priority".data (.str "2".data)

/-- Accessor of a `CsvRow` by CSV field name. -/
def CsvRow.get (r : CsvRow) (k : Str) : Option Json :=
  if k = "Work Item Type".data then some r.workItemType
  else if k = "Title".data then some r.title
  else if k = "Description".data then some r.description
  else if k = "Acceptance Criteria".data then some r.acceptanceCriteria
  else if k = "Priority".data then some r.priority
  else none

/-- Model of Python iteration `for ticket in tickets` over a parsed JSON
value: a list yields its elements, a string yields its characters (each a
one-character string), a dict yields its keys; every other value raises
`TypeError` (`none`). -/
def pyIterTickets : Json → Option (List Json)
  | .arr xs => some xs
  | .str s => some (s.map fun c => Json.str [c])
  | .obj ms => some (ms.map fun m => Json.str m.1)
  | _ => none

/-- The rows written by the export loop, together with a success flag: rows
are written until the first element that is not a dict, where `ticket.get`
raises `AttributeError` and the loop aborts (flag `false`). -/
def writeRowsGo : List Json → List CsvRow → List CsvRow × Bool
  | [], acc => (acc.reverse, true)
  | .obj ms :: rest, acc => writeRowsGo rest (ticketRow ms :: acc)
  | _ :: _, acc => (acc.reverse, false)

/-- The markdown-fence cleanup of src lines 128-135: strip, drop a leading
fence via `split(...)[1]`, drop a trailing fence via `rsplit(..., 1)[0]`,
strip again. -/
def cleanupFences (t : Str) : Str :=
  let c0 := pyStrip t
  let c1 := if pyStartsWith "```json".data c0 then splitIdx1 "```json".data c0 else c0
  let c2 := if pyStartsWith "```".data c1 then splitIdx1 "```".data c1 else c1
  let c3 := if pyEndsWith "```".data c2 then rsplitIdx0 "```".data c2 else c2
  pyStrip c3

/-- The observable outcome of one `export_to_ado_csv` call: its return value
(`some path` on success, `none` on any handled failure), the rows written to
the CSV file (`some` exactly when the file was opened and the header
written), and the content written to the raw-text fallback file, if any. -/
structure ExportEffect where
  ret : Option Str
  csvRows : Option (List CsvRow)
  fallback : Option Str

/-- The export operation (src lines 115-178). The try-block cleans the
markdown fences, parses the JSON, opens the CSV file, writes the header and
then one row per ticket. `json.JSONDecodeError` is caught and handled by
writing the raw, unparsed input to the fallback file and returning `None`;
every other exception (e.g. iterating a non-list, or `.get` on a non-dict
element) is caught by the generic handler, which returns `None` without
writing a fallback. No exception escapes to the caller. -/
def export_to_ado_csv (tickets_json : Str) : ExportEffect :=
  let cleaned := cleanupFences tickets_json
  match json_loads cleaned with
  | none => { ret := none, csvRows := none, fallback := some tickets_json }
  | some tickets =>
    match pyIterTickets tickets with
    | none => { ret := none, csvRows := some [], fallback := none }
    | some elems =>
      match writeRowsGo elems [] with
      | (rows, true) =>
        { ret := some "ado_work_items.csv".data, csvRows := some rows, fallback := none }
      | (rows, false) => { ret := none, csvRows := some rows, fallback := none }

/- ----------------------------------------------------------------- -/
/- The terminal save node (`save_to_file_node`, src lines 181-206).   -/
/- ----------------------------------------------------------------- -/

/-- A file write performed by the save step or the export it calls. -/
inductive FileEvent where
  | writeJsonFile (content : Str)
  | writeCsvFile (rows : List CsvRow)
  | writeFallbackFile (content : Str)

/-- The file writes an `ExportEffect` stands for, in their order. -/
def exportEvents (e : ExportEffect) : List FileEvent :=
  (match e.csvRows with | some r => [.writeCsvFile r] | none => []) ++
  (match e.fallback with | some c => [.writeFallbackFile c] | none => [])

/-- The terminal save node: writes `ado_work_items.json` with all
markdown-fence occurrences removed via `replace`, then calls
`export_to_ado_csv` on the (uncleaned) drafted text, and returns the empty
partial update. The `ado_tickets` field is read by direct indexing in the
source; a missing key would raise `KeyError`, but every driven run reaches
this node only after `create_tickets` has set it, so the model defaults to
the empty string. -/
def save_to_file_node (st : AgentState) : List FileEvent × StateUpdate :=
  let tickets := st.ado_tickets.getD []
  let clean_json := pyReplaceAll "```".data [] (pyReplaceAll "```json".data [] tickets)
  (FileEvent.writeJsonFile clean_json :: exportEvents (export_to_ado_csv tickets),
    emptyUpdate)

/-- The spec's "expected structured format": after the markdown-fence
cleanup, the text parses as a JSON array whose elements are all records
(JSON objects). -/
def parsesAsRecordArray (s : Str) : Prop :=
  ∃ l, json_loads (cleanupFences s) = some (Json.arr l) ∧
    ∀ j ∈ l, ∃ ms, j = Json.obj ms

/- ----------------------------------------------------------------- -/
/- The nodes and their prompts (src lines 49-112).                    -/
/- ----------------------------------------------------------------- -/

/-- Left brace and right brace characters (written by code point). -/
def obr : Char := Char.ofNat 123

/-- Right brace character. -/
def cbr : Char := Char.ofNat 125

/-- Apostrophe character. -/
def apos : Char := Char.ofNat 39

/-- The feedback context prefix of the analysis prompt (src line 56). -/
def feedbackContextText : Str :=
  "\n\nIMPORTANT: The user rejected the previous draft. Fix it based on this feedback: ".data

/-- The analysis prompt text before the feedback context (src lines 58-61). -/
def promptA1 : Str :=
  "\n    You are a Senior Solutions Architect. Analyze this requirement text.\n    Identify gaps and missing criteria.\n    ".data

/-- The analysis prompt text between the feedback context and the
requirement text (src lines 61-64). -/
def promptA2 : Str := "\n    \n    REQUIREMENT TEXT:\n    ".data

/-- The analysis prompt text after the requirement text (src line 65). -/
def promptA3 : Str := "\n    ".data

/-- The prompt built by `analyze_requirements_node` (src lines 52-65). The
feedback context is included only when `state.get('human_feedback')` is
truthy, i.e. present and nonempty. -/
def analyze_prompt (st : AgentState) : Str :=
  promptA1 ++
    (if st.human_feedback.getD [] = [] then []
      else feedbackContextText ++ st.human_feedback.getD []) ++
    promptA2 ++ st.spec_text.getD [] ++ promptA3

/-- The drafting prompt text before the original request (src lines 76-89). -/
def promptB1 : Str :=
  "\n    You are a Technical Product Owner.\n    Based on the original request and the Architect".data ++
    apos ::
      "s gap analysis below,\n    write 3-5 structured Azure DevOps Work Items.\n\n    Return ONLY a valid JSON array. Each work item must have these exact fields:\n    - \"Work Item Type\": Must be one of: \"User Story\", \"Task\", \"Bug\", \"Feature\"\n    - \"Title\": A clear, concise title (max 100 characters)\n    - \"Description\": Detailed description of the work item\n    - \"Acceptance Criteria\": Bulleted list of criteria (use \"- \" for bullets)\n    - \"Priority\": Must be one of: \"1\", \"2\", \"3\", \"4\"\n\n    ORIGINAL REQUEST:\n    ".data

/-- The drafting prompt text between the original request and the analysis
(src lines 90-92). -/
def promptB2 : Str := "\n\n    ARCHITECT".data ++ apos :: "S ANALYSIS:\n    ".data

/-- The drafting prompt text after the analysis (src lines 93-95). -/
def promptB3 : Str :=
  "\n\n    Return ONLY the JSON array, no additional text or markdown code blocks.\n    ".data

/-- The prompt built by `draft_tickets_node` (src lines 76-95). -/
def draft_prompt (st : AgentState) : Str :=
  promptB1 ++ st.spec_text.getD [] ++ promptB2 ++ st.analysis_gaps.getD [] ++ promptB3

/-- Step 1 (src lines 49-67): build the analysis prompt, call the first
text-generation collaborator `gen`, and return the `analysis_gaps` update.
The `spec_text` field is read by direct indexing in the source; every driven
run sets it at start, so the model defaults to the empty string. -/
def analyze_requirements_node (gen : Str → Str) (st : AgentState) : StateUpdate :=
  { emptyUpdate with analysis_gaps := some (gen (analyze_prompt st)) }

/-- Step 2 (src lines 70-97): build the drafting prompt, call the second
text-generation collaborator `gen`, and return the `ado_tickets` update. -/
def draft_tickets_node (gen : Str → Str) (st : AgentState) : StateUpdate :=
  { emptyUpdate with ado_tickets := some (gen (draft_prompt st)) }

/-- Step 3 (src lines 100-112): the node calls `interrupt`, suspending the
run; when the run is resumed with a value, the `interrupt` call returns that
value and the node returns it as the `human_feedback` update. -/
def human_review_node (review_decision : Str) : StateUpdate :=
  { emptyUpdate with human_feedback := some review_decision }

/- ----------------------------------------------------------------- -/
/- The executor loop and the resume protocol.                         -/
/- ----------------------------------------------------------------- -/

/-- Observable events of one driving pass: the number of `export_to_ado_csv`
calls, the prompts of the analysis invocations in order, and the file writes
in order. -/
structure Trace where
  exportCalls : Nat
  analysisPrompts : List Str
  fileEvents : List FileEvent

/-- Outcome of driving the graph: suspended at a step, terminated, out of
fuel, or a router target outside the graph (a configuration error; the
graph of src lines 222-240 never produces it). -/
inductive DriveResult where
  | paused (st : AgentState) (pausedAt : Str) (tr : Trace)
  | terminated (st : AgentState) (tr : Trace)
  | fuelOut
  | configError

/-- The state carried by a paused or terminated result. -/
def DriveResult.stateOf : DriveResult → Option AgentState
  | .paused st _ _ => some st
  | .terminated st _ => some st
  | _ => none

/-- Modelled from the spec: the executor driving loop (the LangGraph compiled
graph is not part of `src/`; the graph structure of src lines 222-240 is).
Each iteration invokes one node, merges its partial update, and follows the
fixed edge, the router decision after `human_review`, or END after
`save_tickets`. `human_review` suspends: the run pauses there and control
returns to the caller. `fuel` only bounds the number of iterations. -/
def drive (g1 g2 : Str → Str) : Nat → Str → AgentState → Trace → DriveResult
  | 0, _, _, _ => .fuelOut
  | f + 1, node, st, tr =>
    if node = "analyze_spec".data then
      drive g1 g2 f "create_tickets".data (merge st (analyze_requirements_node g1 st))
        { tr with analysisPrompts := tr.analysisPrompts ++ [analyze_prompt st] }
    else if node = "create_tickets".data then
      drive g1 g2 f "human_review".data (merge st (draft_tickets_node g2 st)) tr
    else if node = "human_review".data then
      .paused st node tr
    else if node = "save_tickets".data then
      .terminated (merge st (save_to_file_node st).2)
        { tr with
          exportCalls := tr.exportCalls + 1
          fileEvents := tr.fileEvents ++ (save_to_file_node st).1 }
    else .configError

/-- Lifecycle status of a run. -/
inductive RunStatus where
  | RUNNING
  | PAUSED
  | TERMINATED
deriving DecidableEq

/-- A run: its current state snapshot, status, paused-at step, and trace. -/
structure Run where
  state : AgentState
  status : RunStatus
  pausedAt : Option Str
  trace : Trace

/-- The checkpoint store: runs keyed by run identifier. -/
abbrev RunStore := List (Str × Run)

/-- Look a run up by identifier. -/
def storeLookup : RunStore → Str → Option Run
  | [], _ => none
  | (k, r) :: rest, i => if k = i then some r else storeLookup rest i

/-- Save a run under an identifier, replacing any previous entry. -/
def storeSet : RunStore → Str → Run → RunStore
  | [], i, r => [(i, r)]
  | (k, r0) :: rest, i, r =>
    if k = i then (i, r) :: rest else (k, r0) :: storeSet rest i r

/-- Errors of the resume operation. -/
inductive ResumeError where
  | NoSuchRun
  | NotPaused
deriving DecidableEq

/-- Modelled from the spec: `resume(runId, value)` (the LangGraph
`invoke(Command(resume=...))` machinery is not part of `src/`). It fails with
`NoSuchRun` on an unknown identifier and with `NotPaused` when the run is not
paused, leaving the store untouched; otherwise it feeds the value into the
suspended `interrupt` call of `human_review` (whose update is merged), asks
the router for the successor, and drives until the next pause or
termination. -/
def resume (g1 g2 : Str → Str) (fuel : Nat) (store : RunStore) (i v : Str) :
    RunStore × Option ResumeError :=
  match storeLookup store i with
  | none => (store, some .NoSuchRun)
  | some run =>
    if run.status = .PAUSED then
      match drive g1 g2 fuel (router (merge run.state (human_review_node v)))
          (merge run.state (human_review_node v)) run.trace with
      | .paused st2 p tr2 => (storeSet store i ⟨st2, .PAUSED, some p, tr2⟩, none)
      | .terminated st2 tr2 => (storeSet store i ⟨st2, .TERMINATED, none, tr2⟩, none)
      | _ => (store, none)
    else (store, some .NotPaused)

/-- The empty trace. -/
def trEmpty : Trace := ⟨0, [], []⟩

/-- A concrete state paused at review, for witnesses. -/
def pausedState : AgentState :=
  ⟨some "Build a login page".data, some "gap analysis".data, some "draft".data, none⟩

/-- A concrete run paused at the review step, for witnesses. -/
def pausedRun : Run := ⟨pausedState, .PAUSED, some "human_review".data, trEmpty⟩

/-- A concrete one-run store, for witnesses. -/
def storeC : RunStore := [("ticket-session-1".data, pausedRun)]

/-- A concrete text-generation collaborator, for witnesses. -/
def genA : Str → Str := fun _ => "ANALYSIS".data

/-- A second concrete text-generation collaborator, for witnesses. -/
def genB : Str → Str := fun _ => "TICKETS".data

/-- A first ticket record, for the C7 witness. -/
def recA : Str :=
  obr ::
    "\"Work Item Type\":\"Task\",\"Title\":\"T1\",\"Description\":\"D1\",\"Acceptance Criteria\":\"A1\",\"Priority\":\"1\"".data ++
    [cbr]

/-- A second ticket record, for the C7 witness. -/
def recB : Str :=
  obr ::
    "\"Work Item Type\":\"Bug\",\"Title\":\"T2\",\"Description\":\"D2\",\"Acceptance Criteria\":\"A2\",\"Priority\":\"3\"".data ++
    [cbr]

/-- A third ticket record, for the C7 witness. -/
def recC : Str :=
  obr ::
    "\"Work Item Type\":\"Feature\",\"Title\":\"T3\",\"Description\":\"D3\",\"Acceptance Criteria\":\"A3\",\"Priority\":\"4\"".data ++
    [cbr]

/-- A well-formed three-record input, for the C7 witness. -/
def threeRecords : Str := '[' :: (recA ++ ',' :: (recB ++ ',' :: (recC ++ "]".data)))

/-- The parse of the first record. -/
def mA : List (Str × Json) :=
  [("Work Item Type".data, Json.str "Task".data), ("Title".data, Json.str "T1".data),
   ("Description".data, Json.str "D1".data),
   ("Acceptance Criteria".data, Json.str "A1".data),
   ("Priority".data, Json.str "1".data)]

/-- The parse of the second record. -/
def mB : List (Str × Json) :=
  [("Work Item Type".data, Json.str "Bug".data), ("Title".data, Json.str "T2".data),
   ("Description".data, Json.str "D2".data),
   ("Acceptance Criteria".data, Json.str "A2".data),
   ("Priority".data, Json.str "3".data)]

/-- The parse of the third record. -/
def mC : List (Str × Json) :=
  [("Work Item Type".data, Json.str "Feature".data), ("Title".data, Json.str "T3".data),
   ("Description".data, Json.str "D3".data),
   ("Acceptance Criteria".data, Json.str "A3".data),
   ("Priority".data, Json.str "4".data)]

/- ----------------------------------------------------------------- -/
/- Theorems: helper lemmas, then the claims C1-C10.                   -/
/- ----------------------------------------------------------------- -/

/-- C1: the router returns `"save_tickets"` exactly when the human-supplied
value (the `human_feedback` entry, defaulting to the empty string) equals
`"approve"` case-insensitively, and returns `"analyze_spec"` for every other
value, including the empty string. -/
theorem router_approve_sentinel (st : AgentState) :
    (router st = "save_tickets".data ↔
      caseInsensitiveEq (st.human_feedback.getD []) "approve".data) ∧
    (router st = "analyze_spec".data ↔
      ¬ caseInsensitiveEq (st.human_feedback.getD []) "approve".data) := by
  have hl : pyLower "approve".data = "approve".data := rfl
  unfold router caseInsensitiveEq
  rw [hl]
  by_cases h : pyLower (st.human_feedback.getD []) = "approve".data
  · rw [if_pos h]
    exact ⟨⟨fun _ => h, fun _ => rfl⟩,
      ⟨fun he => absurd he (by decide), fun hn => absurd h hn⟩⟩
  · rw [if_neg h]
    exact ⟨⟨fun he => absurd he (by decide), fun hh => absurd hh h⟩,
      ⟨fun _ => h, fun _ => rfl⟩⟩

/-- Witness for C1: a mixed-case `"ApPrOvE"` routes to the save step. -/
theorem router_approve_sentinel_w :
    router ⟨none, none, none, some "ApPrOvE".data⟩ = "save_tickets".data :=
  (router_approve_sentinel _).1.mpr rfl

/-- C2: merging a partial update into a state writes exactly the keys present
in the update with the update's values, carries every other key of the state
over unchanged, and deletes no key. -/
theorem merge_frame (s : AgentState) (u : StateUpdate) (k : Key) :
    (∀ v, u.get k = some v → (merge s u).get k = some v) ∧
    (u.get k = none → (merge s u).get k = s.get k) ∧
    ((merge s u).get k = none → s.get k = none ∧ u.get k = none) := by
  rcases u with ⟨u1, u2, u3, u4⟩
  cases k
  · cases u1 <;> simp [AgentState.get, StateUpdate.get, merge]
  · cases u2 <;> simp [AgentState.get, StateUpdate.get, merge]
  · cases u3 <;> simp [AgentState.get, StateUpdate.get, merge]
  · cases u4 <;> simp [AgentState.get, StateUpdate.get, merge]

/-- Witness for C2: a key absent from the update keeps its prior value. -/
theorem merge_frame_w :
    (merge ⟨some "x".data, none, none, none⟩ ⟨none, some "y".data, none, none⟩).get
        Key.spec_text =
      (AgentState.mk (some "x".data) none none none).get Key.spec_text :=
  (merge_frame _ _ _).2.1 rfl

/- ----------------------------------------------------------------- -/
/- Helper lemmas about the export.                                    -/
/- ----------------------------------------------------------------- -/

/-- The export loop succeeds whenever every element of the parsed array is a
JSON object, regardless of which fields the objects contain. -/
theorem writeRowsGo_all_obj (elems : List Json) (acc : List CsvRow)
    (h : ∀ j ∈ elems, ∃ ms, j = Json.obj ms) : (writeRowsGo elems acc).2 = true := by
  induction elems generalizing acc with
  | nil => rfl
  | cons j rest ih =>
    obtain ⟨ms, rfl⟩ := h j (List.mem_cons_self j rest)
    exact ih _ fun j hj => h j (List.mem_cons_of_mem _ hj)

/-- A field present in a ticket record is copied verbatim into the CSV row. -/
theorem ticketRow_get_present (m : List (Str × Json)) (k : Str) (v : Json)
    (hk : k ∈ fieldnames) (hv : lookupLast m k = some v) :
    (ticketRow m).get k = some v := by
  simp only [fieldnames, List.mem_cons, List.mem_singleton] at hk
  rcases hk with rfl | rfl | rfl | rfl | rfl | h
  · show CsvRow.get _ _ = _
    rw [CsvRow.get, if_pos rfl]
    simp [ticketRow, dictGet, hv]
  · show CsvRow.get _ _ = _
    rw [CsvRow.get, if_neg (by decide), if_pos rfl]
    simp [ticketRow, dictGet, hv]
  · show CsvRow.get _ _ = _
    rw [CsvRow.get, if_neg (by decide), if_neg (by decide), if_pos rfl]
    simp [ticketRow, dictGet, hv]
  · show CsvRow.get _ _ = _
    rw [CsvRow.get, if_neg (by decide), if_neg (by decide), if_neg (by decide),
      if_pos rfl]
    simp [ticketRow, dictGet, hv]
  · show CsvRow.get _ _ = _
    rw [CsvRow.get, if_neg (by decide), if_neg (by decide), if_neg (by decide),
      if_neg (by decide), if_pos rfl]
    simp [ticketRow, dictGet, hv]
  · cases h

/-- Counterexample to C3: the input `"5"` is not parseable as the expected
structured format (it parses as the JSON number 5, not an array of records),
yet the export does not write the raw text to the fallback sink: the
`TypeError` raised by iterating the number is caught by the generic handler,
which returns `None` without any fallback write. -/
theorem export_nonarray_no_fallback_cex :
    ¬ parsesAsRecordArray "5".data ∧
    (export_to_ado_csv "5".data).fallback = none ∧
    (export_to_ado_csv "5".data).ret = none := by
  refine ⟨?_, rfl, rfl⟩
  rintro ⟨l, hl, -⟩
  have h5 : json_loads (cleanupFences "5".data) = some (Json.num 5) := rfl
  rw [h5] at hl
  exact Json.noConfusion (Option.some.inj hl)

/-- C3 (amended): for every input string whose cleaned text is not parseable
as JSON, the export writes the raw, unparsed input text to the fallback sink
and reports the parse failure distinctly from success (`None`, with no CSV
file written); an input that parses as JSON never gets a fallback write; and
the export never raises an unhandled error to the caller: its result is
always either `None` or the success path. (An input that parses as JSON but
is not an array of records can still take the success path — e.g. the empty
object iterates zero keys — so nothing stronger is claimed there.) -/
theorem export_parse_failure_fallback (s : Str) :
    (json_loads (cleanupFences s) = none →
      (export_to_ado_csv s).fallback = some s ∧
      (export_to_ado_csv s).ret = none ∧
      (export_to_ado_csv s).csvRows = none) ∧
    (∀ t, json_loads (cleanupFences s) = some t →
      (export_to_ado_csv s).fallback = none) ∧
    ((export_to_ado_csv s).ret = none ∨
      (export_to_ado_csv s).ret = some "ado_work_items.csv".data) := by
  refine ⟨fun h => ?_, fun t h => ?_, ?_⟩
  · simp [export_to_ado_csv, h]
  · cases hit : pyIterTickets t with
    | none => simp [export_to_ado_csv, h, hit]
    | some elems =>
      cases hw : writeRowsGo elems [] with
      | mk rows ok => cases ok <;> simp [export_to_ado_csv, h, hit, hw]
  · cases h : json_loads (cleanupFences s) with
    | none => simp [export_to_ado_csv, h]
    | some t =>
      cases hit : pyIterTickets t with
      | none => simp [export_to_ado_csv, h, hit]
      | some elems =>
        cases hw : writeRowsGo elems [] with
        | mk rows ok => cases ok <;> simp [export_to_ado_csv, h, hit, hw]

/-- Witness for C3 (amended): `"not json"` does not parse, and its raw text
is written to the fallback sink. -/
theorem export_parse_failure_fallback_w :
    (export_to_ado_csv "not json".data).fallback = some "not json".data :=
  ((export_parse_failure_fallback "not json".data).1 rfl).1

/-- C7: a well-formed input parsing to exactly three records yields a CSV
with exactly those three rows, and every field present in a record appears
field-for-field in its row. -/
theorem export_three_records (s : Str) (m1 m2 m3 : List (Str × Json))
    (hp : json_loads (cleanupFences s) =
      some (Json.arr [Json.obj m1, Json.obj m2, Json.obj m3])) :
    (export_to_ado_csv s).ret = some "ado_work_items.csv".data ∧
    (export_to_ado_csv s).csvRows = some [ticketRow m1, ticketRow m2, ticketRow m3] ∧
    (∀ m ∈ [m1, m2, m3], ∀ k v, k ∈ fieldnames → lookupLast m k = some v →
      (ticketRow m).get k = some v) := by
  refine ⟨?_, ?_, fun m _ k v hk hv => ticketRow_get_present m k v hk hv⟩
  · simp [export_to_ado_csv, hp, pyIterTickets, writeRowsGo]
  · simp [export_to_ado_csv, hp, pyIterTickets, writeRowsGo]

/-- C9: the export never fails on a record's missing field: an absent
`"Work Item Type"` is written as `"User Story"`, an absent `"Priority"` as
`"2"`, and absent `"Title"`, `"Description"` or `"Acceptance Criteria"` as
the empty string; and the row-writing loop succeeds on every array of
records whatever fields they lack. -/
theorem ticketRow_defaults :
    (∀ ms,
      (lookupLast ms "Work Item Type".data = none →
        (ticketRow ms).workItemType = Json.str "User Story".data) ∧
      (lookupLast ms "Title".data = none → (ticketRow ms).title = Json.str []) ∧
      (lookupLast ms "Description".data = none →
        (ticketRow ms).description = Json.str []) ∧
      (lookupLast ms "Acceptance Criteria".data = none →
        (ticketRow ms).acceptanceCriteria = Json.str []) ∧
      (lookupLast ms "Priority".data = none →
        (ticketRow ms).priority = Json.str "2".data)) ∧
    (∀ elems, (∀ j ∈ elems, ∃ ms, j = Json.obj ms) →
      (writeRowsGo elems []).2 = true) := by
  refine ⟨fun ms => ⟨fun h => ?_, fun h => ?_, fun h => ?_, fun h => ?_, fun h => ?_⟩,
    fun elems h => writeRowsGo_all_obj elems [] h⟩ <;>
    simp [ticketRow, dictGet, h]

/-- Witness for C9: a record with no fields at all gets every default. -/
theorem ticketRow_defaults_w :
    (ticketRow []).workItemType = Json.str "User Story".data :=
  (ticketRow_defaults.1 []).1 rfl

/-- C10: the terminal save node's first file write is always the JSON
artifact (the drafted text with every markdown-fence occurrence removed by
`replace`), placed before any write of the export call, so the JSON artifact
exists even when the CSV export fails; and the node returns the empty partial
update, leaving every state field unchanged under the merge. -/
theorem save_node_effects (st : AgentState) :
    (save_to_file_node st).1 =
      FileEvent.writeJsonFile
          (pyReplaceAll "```".data []
            (pyReplaceAll "```json".data [] (st.ado_tickets.getD []))) ::
        exportEvents (export_to_ado_csv (st.ado_tickets.getD [])) ∧
    (save_to_file_node st).2 = emptyUpdate ∧
    (∀ k, (merge st (save_to_file_node st).2).get k = st.get k) := by
  refine ⟨rfl, rfl, fun k => ?_⟩
  cases k <;> rfl

set_option maxRecDepth 4000 in
/-- Witness for C7: exporting the concrete three-record input writes exactly
the three rows with the records' fields. -/
theorem export_three_records_w :
    (export_to_ado_csv threeRecords).csvRows =
      some [ticketRow mA, ticketRow mB, ticketRow mC] :=
  (export_three_records threeRecords mA mB mC rfl).2.1

/-- Saving a run and looking it up again returns exactly the saved run. -/
theorem storeLookup_storeSet (store : RunStore) (i : Str) (r : Run) :
    storeLookup (storeSet store i r) i = some r := by
  induction store with
  | nil => simp [storeSet, storeLookup]
  | cons kv rest ih =>
    rcases kv with ⟨k, r0⟩
    by_cases h : k = i
    · simp [storeSet, h, storeLookup]
    · simp [storeSet, h, storeLookup, ih]

/-- A list begins with itself followed by anything. -/
theorem leadsWith_self_append (n b : Str) : leadsWith n (n ++ b) = true := by
  induction n with
  | nil => rfl
  | cons a as ih => simp [leadsWith, ih]

/-- The empty string occurs in every string. -/
theorem hasSub_nil (hay : Str) : hasSub [] hay = true := by
  cases hay <;> simp [hasSub, leadsWith, List.isEmpty]

/-- A string occurs in any string built around it. -/
theorem hasSub_append (a n b : Str) : hasSub n (a ++ (n ++ b)) = true := by
  induction a with
  | nil =>
    cases n with
    | nil => exact hasSub_nil _
    | cons x xs =>
      show (leadsWith (x :: xs) ((x :: xs) ++ b) || hasSub (x :: xs) (xs ++ b)) = true
      rw [leadsWith_self_append]
      rfl
  | cons c a2 ih => simp [hasSub, ih]

/-- When the state carries feedback, the analysis prompt contains it
verbatim. -/
theorem analyze_prompt_contains_feedback (st : AgentState) (v : Str)
    (h : st.human_feedback = some v) : hasSub v (analyze_prompt st) = true := by
  by_cases hv0 : v = []
  · exact hv0 ▸ hasSub_nil _
  · unfold analyze_prompt
    rw [h]
    simp only [Option.getD_some]
    rw [if_neg hv0]
    have hb := hasSub_append (promptA1 ++ feedbackContextText) v
      ((promptA2 ++ st.spec_text.getD []) ++ promptA3)
    simpa [List.append_assoc] using hb

/-- C6: resuming an unknown run identifier fails with `NoSuchRun`, and
resuming a run that is `RUNNING` or `TERMINATED` (not `PAUSED`) fails with
`NotPaused`; in both cases the store of runs is returned untouched. -/
theorem resume_error_cases (g1 g2 : Str → Str) (fuel : Nat) (store : RunStore)
    (i v : Str) :
    (storeLookup store i = none →
      resume g1 g2 fuel store i v = (store, some ResumeError.NoSuchRun)) ∧
    (∀ run, storeLookup store i = some run → run.status ≠ RunStatus.PAUSED →
      resume g1 g2 fuel store i v = (store, some ResumeError.NotPaused)) := by
  constructor
  · intro h
    simp [resume, h]
  · intro run h hs
    simp [resume, h, hs]

/-- Witness for C6: resuming in an empty store reports `NoSuchRun`, and
resuming a terminated run reports `NotPaused`. -/
theorem resume_error_cases_w :
    resume genA genB 1 [] "nope".data "x".data = ([], some ResumeError.NoSuchRun) ∧
    resume genA genB 1 [("r".data, ⟨pausedState, .TERMINATED, none, trEmpty⟩)]
        "r".data "x".data =
      ([("r".data, ⟨pausedState, .TERMINATED, none, trEmpty⟩)],
        some ResumeError.NotPaused) :=
  ⟨(resume_error_cases genA genB 1 [] "nope".data "x".data).1 rfl,
    (resume_error_cases genA genB 1 _ "r".data "x".data).2 _ rfl (by decide)⟩

/-- C4: resuming a run paused at the human-review step with the value
`"approve"` drives it to the terminal save step, which has no successor, so
the run becomes `TERMINATED`; exactly one export call happens during the
resumed pass. -/
theorem resume_approve_terminates (g1 g2 : Str → Str) (f : Nat) (store : RunStore)
    (i : Str) (run : Run) (h1 : storeLookup store i = some run)
    (h2 : run.status = RunStatus.PAUSED)
    (h3 : run.pausedAt = some "human_review".data) :
    (resume g1 g2 (f + 1) store i "approve".data).2 = none ∧
    ∃ run2,
      storeLookup (resume g1 g2 (f + 1) store i "approve".data).1 i = some run2 ∧
      run2.status = RunStatus.TERMINATED ∧
      run2.trace.exportCalls = run.trace.exportCalls + 1 := by
  have hr : router (merge run.state (human_review_node "approve".data)) =
      "save_tickets".data := rfl
  have hd : drive g1 g2 (f + 1) "save_tickets".data
      (merge run.state (human_review_node "approve".data)) run.trace =
      .terminated
        (merge (merge run.state (human_review_node "approve".data))
          (save_to_file_node (merge run.state (human_review_node "approve".data))).2)
        { run.trace with
          exportCalls := run.trace.exportCalls + 1
          fileEvents := run.trace.fileEvents ++
            (save_to_file_node (merge run.state (human_review_node "approve".data))).1 } :=
    rfl
  refine ⟨?_, ?_⟩
  · simp only [resume, h1, h2, if_pos, hr, hd]
  · simp only [resume, h1, h2, if_pos, hr, hd]
    exact ⟨_, storeLookup_storeSet store i _, rfl, rfl⟩

/-- Witness for C4: resuming the concrete paused run with `"approve"`
reports no error. -/
theorem resume_approve_terminates_w :
    (resume genA genB 9 storeC "ticket-session-1".data "approve".data).2 = none :=
  (resume_approve_terminates genA genB 8 storeC "ticket-session-1".data pausedRun
    rfl rfl rfl).1

/-- Counterexample to C5: `"APPROVE"` is a value other than `"approve"`, yet
resuming the paused run with it does not route back to the analysis step: the
case-insensitive sentinel match sends it to the save step and the run
terminates. -/
theorem resume_uppercase_approve_cex :
    "APPROVE".data ≠ "approve".data ∧
    router (merge pausedRun.state (human_review_node "APPROVE".data)) =
      "save_tickets".data ∧
    ∃ run2,
      storeLookup (resume genA genB 9 storeC "ticket-session-1".data
          "APPROVE".data).1 "ticket-session-1".data = some run2 ∧
      run2.status = RunStatus.TERMINATED := by
  exact ⟨by decide, rfl, ⟨_, rfl, rfl⟩⟩

/-- C5 (amended): resuming a run paused at the human-review step with any
value that does not case-insensitively equal `"approve"` routes back to the
analysis step, and the prompt of the next analysis invocation contains that
literal feedback text. -/
theorem resume_feedback_loops (g1 g2 : Str → Str) (f : Nat) (store : RunStore)
    (i v : Str) (run : Run) (h1 : storeLookup store i = some run)
    (h2 : run.status = RunStatus.PAUSED)
    (h3 : run.pausedAt = some "human_review".data)
    (hv : pyLower v ≠ "approve".data) :
    router (merge run.state (human_review_node v)) = "analyze_spec".data ∧
    (resume g1 g2 (f + 3) store i v).2 = none ∧
    ∃ run2,
      storeLookup (resume g1 g2 (f + 3) store i v).1 i = some run2 ∧
      run2.status = RunStatus.PAUSED ∧
      run2.pausedAt = some "human_review".data ∧
      run2.trace.analysisPrompts = run.trace.analysisPrompts ++
        [analyze_prompt (merge run.state (human_review_node v))] ∧
      hasSub v (analyze_prompt (merge run.state (human_review_node v))) = true := by
  have hr : router (merge run.state (human_review_node v)) = "analyze_spec".data := by
    show (if pyLower v = "approve".data then "save_tickets".data
      else "analyze_spec".data) = "analyze_spec".data
    exact if_neg hv
  have hd : drive g1 g2 (f + 3) "analyze_spec".data
      (merge run.state (human_review_node v)) run.trace =
      .paused
        (merge (merge (merge run.state (human_review_node v))
            (analyze_requirements_node g1 (merge run.state (human_review_node v))))
          (draft_tickets_node g2
            (merge (merge run.state (human_review_node v))
              (analyze_requirements_node g1 (merge run.state (human_review_node v))))))
        "human_review".data
        { run.trace with
          analysisPrompts := run.trace.analysisPrompts ++
            [analyze_prompt (merge run.state (human_review_node v))] } :=
    rfl
  refine ⟨hr, ?_, ?_⟩
  · simp only [resume, h1, h2, if_pos, hr, hd]
  · simp only [resume, h1, h2, if_pos, hr, hd]
    exact ⟨_, storeLookup_storeSet store i _, rfl, rfl, rfl,
      analyze_prompt_contains_feedback _ v rfl⟩

/-- Witness for C5 (amended): the feedback `"make it shorter"` routes back
to the analysis step. -/
theorem resume_feedback_loops_w :
    router (merge pausedRun.state (human_review_node "make it shorter".data)) =
      "analyze_spec".data :=
  (resume_feedback_loops genA genB 6 storeC "ticket-session-1".data
    "make it shorter".data pausedRun rfl rfl rfl (by decide)).1

/-- C8: no node's partial update contains the `spec_text` field (step 1
writes `analysis_gaps`, step 2 writes `ado_tickets`, step 3 writes
`human_feedback`, the save step writes nothing), and therefore driving any
sequence of steps leaves `spec_text` at its initial value. -/
theorem spec_text_immutable :
    (∀ g st, (analyze_requirements_node g st).spec_text = none) ∧
    (∀ g st, (draft_tickets_node g st).spec_text = none) ∧
    (∀ v, (human_review_node v).spec_text = none) ∧
    (∀ st, (save_to_file_node st).2.spec_text = none) ∧
    (∀ g1 g2 fuel node st tr st2,
      (drive g1 g2 fuel node st tr).stateOf = some st2 →
      st2.spec_text = st.spec_text) := by
  refine ⟨fun _ _ => rfl, fun _ _ => rfl, fun _ => rfl, fun _ => rfl, ?_⟩
  intro g1 g2 fuel
  induction fuel with
  | zero => intro node st tr st2 h; cases h
  | succ f ih =>
    intro node st tr st2 h
    unfold drive at h
    split_ifs at h
    · rw [ih _ _ _ _ h]; rfl
    · rw [ih _ _ _ _ h]; rfl
    · injection h with h2; rw [← h2]
    · injection h with h2; rw [← h2]; rfl
    · cases h

/-- Witness for C8: a three-step pass from the analysis step leaves
`spec_text` unchanged. -/
theorem spec_text_immutable_w :
    ∃ st2,
      (drive genA genB 3 "analyze_spec".data
          (AgentState.mk (some "X".data) none none none) trEmpty).stateOf =
        some st2 ∧
      st2.spec_text = some "X".data := by
  refine ⟨_, rfl, ?_⟩
  rw [spec_text_immutable.2.2.2.2 genA genB 3 "analyze_spec".data
    (AgentState.mk (some "X".data) none none none) trEmpty _ rfl]

